import Mathlib

/-!
Shallow embedding of the RuntimeAssetImport plugin (Udon-Tobira/RuntimeAssetImportPlugin)
and verification of the frozen claims about its specification.

Modelling conventions:
* `float` scalars are modelled as exact rationals (`ℚ`); the trigonometric values
  `cos(PI/2)` and `sin(PI/2)` computed by the C++ standard library inside
  `aiMatrix4x4t::RotationX` are abstracted as parameters `c s : ℚ`.
* `aiMatrix4x4` and UE's `FMatrix` are both modelled by the 16-field structure `Mat4`
  (assimp field naming `a1..d4`, row `a` first).  UE stores the transpose of the assimp
  matrix and applies matrices to row vectors; assimp applies them to column vectors.
* An `FTransform` is identified with its `ToMatrixWithScale()` matrix; the reconstruction
  code converts through the matrix form at every composition step, and every claim about
  transforms is stated at the matrix level.
* C++ pointers that may be null are modelled as `Option`; `TArray::AddUninitialized`
  produces entries modelled by `default` (their values are unspecified in the source and
  no claim depends on them).
* UE `check` / `checkf` / `verifyf` fatal assertions are modelled by `Except FatalError`:
  a failed assertion is `.error`, normal completion is `.ok`.
-/

/-- Fatal assertion failures (`check` / `checkf` / `verifyf` macros in the source). -/
inductive FatalError where
  /-- `check(!MeshData.NodeList.IsEmpty())` at a reconstruction entry point failed. -/
  | emptyNodeList : FatalError
  /-- `verifyf(NumTexture == 1, ...)` in `GenerateMaterialList` failed. -/
  | multipleDiffuseTextures : FatalError
  /-- `verifyf(MaterialData.ColorStatus != EColorStatus::None, ...)` failed. -/
  | colorStatusNotSet : FatalError
  /-- `checkf(AiFace.mNumIndices == 3, ...)` in the triangle extraction failed. -/
  | nonTriangularFace : FatalError
deriving DecidableEq, Repr

/-- Two-dimensional vector (`FVector2D`), components modelled as `ℚ`. -/
structure Vec2 where
  x : ℚ
  y : ℚ
deriving DecidableEq, Repr

instance : Inhabited Vec2 := ⟨⟨0, 0⟩⟩

/-- Three-dimensional vector (`FVector` / `aiVector3D`), components modelled as `ℚ`. -/
structure Vec3 where
  x : ℚ
  y : ℚ
  z : ℚ
deriving DecidableEq, Repr

instance : Inhabited Vec3 := ⟨⟨0, 0, 0⟩⟩

/-- Linear color (`FLinearColor` / `aiColor4D`); `FLinearColor(ForceInit)` is all zeros. -/
structure LinearColor where
  r : ℚ
  g : ℚ
  b : ℚ
  a : ℚ
deriving DecidableEq, Repr

instance : Inhabited LinearColor := ⟨⟨0, 0, 0, 0⟩⟩

/-- Procedural-mesh tangent (`FProcMeshTangent`): a tangent direction plus a flip flag.
The `{x, y, z}` constructor used by the extractor leaves `bFlipTangentY` at `false`. -/
structure ProcMeshTangent where
  tangentX : Vec3
  bFlipTangentY : Bool
deriving DecidableEq, Repr

instance : Inhabited ProcMeshTangent := ⟨⟨⟨1, 0, 0⟩, false⟩⟩

/-- A 4x4 matrix with assimp's field naming (`aiMatrix4x4`): row `a` is the first row,
`a1` its first entry.  UE's `FMatrix` is represented by the same structure (its rows
listed in order); `AiMatrixToUEMatrix` below transposes between the two conventions. -/
structure Mat4 where
  a1 : ℚ
  a2 : ℚ
  a3 : ℚ
  a4 : ℚ
  b1 : ℚ
  b2 : ℚ
  b3 : ℚ
  b4 : ℚ
  c1 : ℚ
  c2 : ℚ
  c3 : ℚ
  c4 : ℚ
  d1 : ℚ
  d2 : ℚ
  d3 : ℚ
  d4 : ℚ
deriving DecidableEq, Repr

/-- The identity matrix (`aiMatrix4x4()` default constructor / `FTransform::Identity`). -/
def idMat4 : Mat4 :=
  ⟨1, 0, 0, 0,
   0, 1, 0, 0,
   0, 0, 1, 0,
   0, 0, 0, 1⟩

instance : Inhabited Mat4 := ⟨idMat4⟩

/-- Standard matrix product, as implemented by `aiMatrix4x4t::operator*` and by UE's
`FMatrix::operator*`: entry `(r, k)` of `A.mul B` is the dot product of row `r` of `A`
with column `k` of `B`. -/
def Mat4.mul (A B : Mat4) : Mat4 where
  a1 := A.a1 * B.a1 + A.a2 * B.b1 + A.a3 * B.c1 + A.a4 * B.d1
  a2 := A.a1 * B.a2 + A.a2 * B.b2 + A.a3 * B.c2 + A.a4 * B.d2
  a3 := A.a1 * B.a3 + A.a2 * B.b3 + A.a3 * B.c3 + A.a4 * B.d3
  a4 := A.a1 * B.a4 + A.a2 * B.b4 + A.a3 * B.c4 + A.a4 * B.d4
  b1 := A.b1 * B.a1 + A.b2 * B.b1 + A.b3 * B.c1 + A.b4 * B.d1
  b2 := A.b1 * B.a2 + A.b2 * B.b2 + A.b3 * B.c2 + A.b4 * B.d2
  b3 := A.b1 * B.a3 + A.b2 * B.b3 + A.b3 * B.c3 + A.b4 * B.d3
  b4 := A.b1 * B.a4 + A.b2 * B.b4 + A.b3 * B.c4 + A.b4 * B.d4
  c1 := A.c1 * B.a1 + A.c2 * B.b1 + A.c3 * B.c1 + A.c4 * B.d1
  c2 := A.c1 * B.a2 + A.c2 * B.b2 + A.c3 * B.c2 + A.c4 * B.d2
  c3 := A.c1 * B.a3 + A.c2 * B.b3 + A.c3 * B.c3 + A.c4 * B.d3
  c4 := A.c1 * B.a4 + A.c2 * B.b4 + A.c3 * B.c4 + A.c4 * B.d4
  d1 := A.d1 * B.a1 + A.d2 * B.b1 + A.d3 * B.c1 + A.d4 * B.d1
  d2 := A.d1 * B.a2 + A.d2 * B.b2 + A.d3 * B.c2 + A.d4 * B.d2
  d3 := A.d1 * B.a3 + A.d2 * B.b3 + A.d3 * B.c3 + A.d4 * B.d3
  d4 := A.d1 * B.a4 + A.d2 * B.b4 + A.d3 * B.c4 + A.d4 * B.d4

/-- Transpose of a `Mat4`. -/
def Mat4.transpose (M : Mat4) : Mat4 :=
  ⟨M.a1, M.b1, M.c1, M.d1,
   M.a2, M.b2, M.c2, M.d2,
   M.a3, M.b3, M.c3, M.d3,
   M.a4, M.b4, M.c4, M.d4⟩

/-! ### The intermediate data model (Public/Loaded*.h) -/

/-- Color status of a loaded material (`EColorStatus` in LoadedMaterialData.h).
The implementation files additionally reference `EColorStatus::None` (the
default "not yet set" state, called `Unset` by the spec); it is included here as the
zero value so that a default-constructed `FLoadedMaterialData` carries it. -/
inductive EColorStatus where
  /-- Status was never assigned (`EColorStatus::None`, spec `Unset`). -/
  | none : EColorStatus
  /-- Color is set but not texture. -/
  | colorIsSet : EColorStatus
  /-- Texture is set but not color. -/
  | textureIsSet : EColorStatus
  /-- Texture was set but failed to load. -/
  | textureWasSetButError : EColorStatus
deriving DecidableEq, Repr

instance : Inhabited EColorStatus := ⟨.none⟩

/-- Data of a loaded material (`FLoadedMaterialData`).  Texture bytes are `List ℕ`. -/
structure FLoadedMaterialData where
  Color : LinearColor := default
  CompressedTextureData : List ℕ := []
  ColorStatus : EColorStatus := default
deriving DecidableEq, Repr

instance : Inhabited FLoadedMaterialData := ⟨{}⟩

/-- One mesh-section record (`FLoadedMeshSectionData`).  Triangle entries and the
material index are `int32` / `int` in the source, modelled as `ℤ`. -/
structure FLoadedMeshSectionData where
  Vertices : List Vec3 := []
  Triangles : List ℤ := []
  Normals : List Vec3 := []
  UV0Channel : List Vec2 := []
  VertexColors0 : List LinearColor := []
  Tangents : List ProcMeshTangent := []
  MaterialIndex : ℤ := -2147483648
deriving DecidableEq, Repr

instance : Inhabited FLoadedMeshSectionData := ⟨{}⟩

/-- One node of the loaded mesh (`FLoadedMeshNode`).  `RelativeTransform` is an
`FTransform` in the source, modelled by its matrix.  `ParentNodeIndex` defaults to
`std::numeric_limits<int>::min()`. -/
structure FLoadedMeshNode where
  Name : String := ""
  RelativeTransform : Mat4 := idMat4
  Sections : List FLoadedMeshSectionData := []
  ParentNodeIndex : ℤ := -2147483648
deriving DecidableEq, Repr

instance : Inhabited FLoadedMeshNode := ⟨{}⟩

/-- The root intermediate representation (`FLoadedMeshData`). -/
structure FLoadedMeshData where
  NodeList : List FLoadedMeshNode := []
  MaterialList : List FLoadedMaterialData := []
deriving DecidableEq, Repr

instance : Inhabited FLoadedMeshData := ⟨{}⟩

/-! ### Model of the relevant parts of assimp's scene (external collaborator) -/

/-- Result code of the assimp getter APIs (`aiReturn`), paired with the value the
out-parameter receives on success. -/
inductive AiReturn (α : Type) where
  /-- `aiReturn_SUCCESS`; the out-parameter received this value. -/
  | success : α → AiReturn α
  /-- `aiReturn_FAILURE`. -/
  | failure : AiReturn α
  /-- `aiReturn_OUTOFMEMORY`. -/
  | outOfMemory : AiReturn α
deriving DecidableEq, Repr

/-- An assimp material (`aiMaterial`), exposing only the queries the plugin performs:
the diffuse-texture count, the diffuse color and the first diffuse texture path. -/
structure AiMaterial where
  diffuseTextureCount : ℕ
  diffuseColor : AiReturn LinearColor
  diffuseTexturePath0 : AiReturn String
deriving DecidableEq, Repr

/-- An embedded texture (`aiTexture`): `mHeight = 0` signals already-compressed data
(`pcData` then holds `mWidth` bytes); otherwise `pcData` holds raw BGRA8 pixels. -/
structure AiTexture where
  mWidth : ℕ
  mHeight : ℕ
  pcData : List ℕ
deriving DecidableEq, Repr

/-- Scene metadata (`aiMetadata`), exposing only the `"UnitScaleFactor"` entry:
`none` models `Get("UnitScaleFactor", ...)` returning `false`. -/
structure AiMetadata where
  unitScaleFactor : Option ℚ
deriving DecidableEq, Repr

/-- One face of an assimp mesh (`aiFace`): a list of vertex indices.  The extractor
fatally asserts that every face has exactly 3 indices. -/
structure AiFace where
  mIndices : List ℤ
deriving DecidableEq, Repr

/-- An assimp mesh (`aiMesh`).  Channel pointers that can be null are `Option`;
`mTextureCoords[0]` / `mColors[0]` are the only channels the plugin reads.
UV entries are `aiVector3D` in assimp; only `x`/`y` are read, so they are `Vec2` here. -/
structure AiMesh where
  mNumVertices : ℕ
  mVertices : Option (List Vec3)
  mNumFaces : ℕ
  mFaces : Option (List AiFace)
  mNormals : Option (List Vec3)
  mTextureCoords0 : Option (List Vec2)
  mColors0 : Option (List LinearColor)
  mTangents : Option (List Vec3)
  mMaterialIndex : ℕ
deriving DecidableEq, Repr

instance : Inhabited AiMesh := ⟨⟨0, .none, 0, .none, .none, .none, .none, .none, 0⟩⟩

/-- An assimp node (`aiNode`): name, local transform, mesh indices and children. -/
inductive AiNode where
  | mk (mName : String) (mTransformation : Mat4) (mMeshes : List ℕ)
      (mChildren : List AiNode) : AiNode

/-- Name of an `AiNode`. -/
def AiNode.mName : AiNode → String
  | .mk n _ _ _ => n

/-- Local transformation of an `AiNode` (assimp convention, column vectors). -/
def AiNode.mTransformation : AiNode → Mat4
  | .mk _ t _ _ => t

/-- Mesh indices of an `AiNode` (indices into the scene's `mMeshes`). -/
def AiNode.mMeshes : AiNode → List ℕ
  | .mk _ _ m _ => m

/-- Children of an `AiNode`. -/
def AiNode.mChildren : AiNode → List AiNode
  | .mk _ _ _ c => c

/-- An assimp scene (`aiScene`): root node, flat mesh and material lists, the
embedded-texture table (queried by name via `GetEmbeddedTexture`) and optional
metadata (`mMetaData` may be null). -/
structure AiScene where
  mRootNode : AiNode
  mMeshes : List AiMesh
  mMaterials : List AiMaterial
  mTextures : List (String × AiTexture)
  mMetaData : Option AiMetadata

/-- Embedded-texture lookup (`aiScene::GetEmbeddedTexture`): resolve a texture path
against the scene's embedded-texture table, `none` when the name is not present. -/
def AiScene.GetEmbeddedTexture (scene : AiScene) (path : String) : Option AiTexture :=
  (scene.mTextures.find? (fun e => e.1 = path)).map (·.2)

/-! ### AssetLoader.cpp: coordinate normalisation -/

/-- Result of `aiMatrix4x4t::Scaling(v, out)`: a diagonal scaling matrix. -/
def aiMatrix4x4Scaling (v : Vec3) : Mat4 :=
  ⟨v.x, 0, 0, 0,
   0, v.y, 0, 0,
   0, 0, v.z, 0,
   0, 0, 0, 1⟩

/-- Result of `aiMatrix4x4t::RotationX(a, out)` where `c`/`s` are the cosine and sine of
the angle `a` as computed by the C++ float library (the plugin passes `a = PI / 2.0f`,
i.e. +90 degrees): `out.b2 = out.c3 = cos(a)`, `out.c2 = sin(a)`, `out.b3 = -sin(a)`. -/
def aiMatrix4x4RotationX (c s : ℚ) : Mat4 :=
  ⟨1, 0, 0, 0,
   0, c, -s, 0,
   0, s, c, 0,
   0, 0, 0, 1⟩

/-- `GetAiUnitScaleFactor` (AssetLoader.cpp lines 191-212): the `"UnitScaleFactor"`
metadata entry, defaulting to `1.0f` when the scene has no metadata or no such entry. -/
def GetAiUnitScaleFactor (AiSceneArg : AiScene) : ℚ :=
  match AiSceneArg.mMetaData with
  | none => 1
  | some AiMetaData =>
    match AiMetaData.unitScaleFactor with
    | none => 1
    | some MetaDataUnitScaleFactor => MetaDataUnitScaleFactor

/-- `GenerateAi_UE_XformMatrix` (AssetLoader.cpp lines 214-228): the product
`Scale_Ai_UE * Rot_AiYUp_UEZUp` of the unit-scaling matrix and the +90-degree
X-rotation matrix (`c`/`s` the cosine/sine of `PI / 2.0f`). -/
def GenerateAi_UE_XformMatrix (c s : ℚ) (AiSceneArg : AiScene) : Mat4 :=
  let AiUnitScaleFactor := GetAiUnitScaleFactor AiSceneArg
  let Scale_Ai_UE :=
    aiMatrix4x4Scaling ⟨AiUnitScaleFactor, AiUnitScaleFactor, AiUnitScaleFactor⟩
  let Rot_AiYUp_UEZUp := aiMatrix4x4RotationX c s
  Scale_Ai_UE.mul Rot_AiYUp_UEZUp

/-- `TransformToUECoordinateSystem` (AssetLoader.cpp lines 176-189): overwrite the root
node's transformation with `Ai_UE_XformMatrix * AiRootNodeXForm`; the rest of the scene
is untouched. -/
def TransformToUECoordinateSystem (c s : ℚ) (AiSceneArg : AiScene) : AiScene :=
  let Ai_UE_XformMatrix := GenerateAi_UE_XformMatrix c s AiSceneArg
  { AiSceneArg with
    mRootNode :=
      match AiSceneArg.mRootNode with
      | .mk nm AiRootNodeXForm ms ch => .mk nm (Ai_UE_XformMatrix.mul AiRootNodeXForm) ms ch }

/-! ### AssetLoader.cpp: material extraction -/

/-- `GenerateMaterialList` (AssetLoader.cpp lines 230-363).  `compress` stands for the
external `FImageUtils::CompressImage(..., "png", ...)` codec (width, height, raw BGRA
bytes to compressed bytes); the claims never depend on its output.  For each material:
with no diffuse texture the status becomes `ColorIsSet` and the color is filled
best-effort; with one diffuse texture the status becomes `TextureWasSetButError` if the
path query fails, otherwise `TextureIsSet`, after which the embedded texture is copied
(verbatim when `mHeight == 0`, re-encoded otherwise) — a path that resolves to no
embedded texture only logs.  More than one diffuse texture is a fatal assertion. -/
def GenerateMaterialList (compress : ℕ → ℕ → List ℕ → List ℕ) (AiSceneArg : AiScene) :
    Except FatalError (List FLoadedMaterialData) :=
  AiSceneArg.mMaterials.mapM (fun AiMaterialArg => do
    let MaterialData : FLoadedMaterialData := {}
    let MaterialData ←
      if AiMaterialArg.diffuseTextureCount = 0 then
        let MaterialData := { MaterialData with ColorStatus := .colorIsSet }
        match AiMaterialArg.diffuseColor with
        | .failure => pure MaterialData
        | .outOfMemory => pure MaterialData
        | .success AiDiffuse => pure { MaterialData with Color := AiDiffuse }
      else if AiMaterialArg.diffuseTextureCount ≠ 1 then
        throw FatalError.multipleDiffuseTextures
      else
        match AiMaterialArg.diffuseTexturePath0 with
        | .failure => pure { MaterialData with ColorStatus := .textureWasSetButError }
        | .outOfMemory => pure { MaterialData with ColorStatus := .textureWasSetButError }
        | .success AiTexture0Path => do
          let MaterialData := { MaterialData with ColorStatus := .textureIsSet }
          match AiSceneArg.GetEmbeddedTexture AiTexture0Path with
          | none => pure MaterialData
          | some AiTexture0 =>
            if AiTexture0.mHeight ≠ 0 then
              pure { MaterialData with
                CompressedTextureData :=
                  compress AiTexture0.mWidth AiTexture0.mHeight AiTexture0.pcData }
            else
              pure { MaterialData with
                CompressedTextureData := AiTexture0.pcData.take AiTexture0.mWidth }
    if MaterialData.ColorStatus = .none then throw FatalError.colorStatusNotSet
    else pure MaterialData)

/-! ### AssetLoader.cpp: per-mesh channel extraction -/

/-- `aiMesh::HasPositions`: vertex data present and at least one vertex. -/
def AiMesh.HasPositions (m : AiMesh) : Bool :=
  m.mVertices.isSome && decide (0 < m.mNumVertices)

/-- `aiMesh::HasFaces`: face data present and at least one face. -/
def AiMesh.HasFaces (m : AiMesh) : Bool :=
  m.mFaces.isSome && decide (0 < m.mNumFaces)

/-- `aiMesh::HasNormals`: normal data present and at least one vertex. -/
def AiMesh.HasNormals (m : AiMesh) : Bool :=
  m.mNormals.isSome && decide (0 < m.mNumVertices)

/-- `aiMesh::HasTextureCoords(0)`: first UV channel present and at least one vertex. -/
def AiMesh.HasTextureCoords0 (m : AiMesh) : Bool :=
  m.mTextureCoords0.isSome && decide (0 < m.mNumVertices)

/-- `aiMesh::HasVertexColors(0)`: first color channel present and at least one vertex. -/
def AiMesh.HasVertexColors0 (m : AiMesh) : Bool :=
  m.mColors0.isSome && decide (0 < m.mNumVertices)

/-- `aiMesh::HasTangentsAndBitangents`; the plugin never reads bitangents, which are
assumed present exactly when tangents are. -/
def AiMesh.HasTangentsAndBitangents (m : AiMesh) : Bool :=
  m.mTangents.isSome && decide (0 < m.mNumVertices)

/-- The fill loop `for (i = 0; i < n; ++i) out[i] = data[i]` over an `AddUninitialized`
array: entry `i` receives `data[i]`. -/
def fillFrom {α : Type} [Inhabited α] (data : List α) (n : ℕ) : List α :=
  (List.range n).map (fun i => data.getD i default)

/-- The `Section.Vertices` lambda (AssetLoader.cpp lines 398-415):
`AddUninitialized(NumVertices)`, filled from `mVertices` when `HasPositions()`. -/
def extractVertices (m : AiMesh) : List Vec3 :=
  if m.HasPositions then fillFrom (m.mVertices.getD []) m.mNumVertices
  else List.replicate m.mNumVertices default

/-- The `Section.Triangles` lambda (AssetLoader.cpp lines 418-441): empty when
`HasFaces()` is false, otherwise `NumFaces * 3` indices with a fatal `checkf` that
every face is triangular. -/
def extractTriangles (m : AiMesh) : Except FatalError (List ℤ) :=
  if m.HasFaces then do
    let AiFaces := m.mFaces.getD []
    let triples ← (List.range m.mNumFaces).mapM (fun i => do
      let AiFace := AiFaces.getD i ⟨[]⟩
      if AiFace.mIndices.length = 3 then pure AiFace.mIndices
      else throw FatalError.nonTriangularFace)
    pure triples.flatten
  else pure []

/-- The `Section.Normals` lambda (AssetLoader.cpp lines 444-462):
`AddUninitialized(NumNormals)` with `NumNormals == mNumVertices`, filled from
`mNormals` only when `HasNormals()`. -/
def extractNormals (m : AiMesh) : List Vec3 :=
  if m.HasNormals then fillFrom (m.mNormals.getD []) m.mNumVertices
  else List.replicate m.mNumVertices default

/-- The `Section.UV0Channel` lambda (AssetLoader.cpp lines 465-499):
`AddUninitialized(NumVertices)`, filled from the first UV channel when present. -/
def extractUV0Channel (m : AiMesh) : List Vec2 :=
  let UV0Channel := List.replicate m.mNumVertices (default : Vec2)
  if m.HasTextureCoords0 then
    match m.mTextureCoords0 with
    | none => UV0Channel
    | some AiUV0Channel =>
      if m.mNumVertices = 0 then UV0Channel
      else fillFrom AiUV0Channel m.mNumVertices
  else UV0Channel

/-- The `Section.VertexColors0` lambda (AssetLoader.cpp lines 502-537):
`AddUninitialized(NumVertices)`, filled from the first color channel when present. -/
def extractVertexColors0 (m : AiMesh) : List LinearColor :=
  let VertexColors0 := List.replicate m.mNumVertices (default : LinearColor)
  if m.HasVertexColors0 then
    match m.mColors0 with
    | none => VertexColors0
    | some AiVertexColors0 =>
      if m.mNumVertices = 0 then VertexColors0
      else fillFrom AiVertexColors0 m.mNumVertices
  else VertexColors0

/-- The `Section.Tangents` lambda (AssetLoader.cpp lines 540-558):
`AddUninitialized(NumTangents)` with `NumTangents == mNumVertices`, filled from
`mTangents` (flip flag left `false`) only when `HasTangentsAndBitangents()`. -/
def extractTangents (m : AiMesh) : List ProcMeshTangent :=
  if m.HasTangentsAndBitangents then
    (List.range m.mNumVertices).map
      (fun i => ⟨(m.mTangents.getD []).getD i default, false⟩)
  else List.replicate m.mNumVertices default

/-- The per-section body of the loop in `ConstructMeshData` (AssetLoader.cpp lines
389-562): one `FLoadedMeshSectionData` extracted from one `aiMesh`. -/
def constructSectionFromAiMesh (m : AiMesh) : Except FatalError FLoadedMeshSectionData := do
  let Triangles ← extractTriangles m
  pure
    { Vertices := extractVertices m
      Triangles := Triangles
      Normals := extractNormals m
      UV0Channel := extractUV0Channel m
      VertexColors0 := extractVertexColors0 m
      Tangents := extractTangents m
      MaterialIndex := (m.mMaterialIndex : ℤ) }

/-! ### AssetLoader.cpp: recursive node extraction and the public loaders -/

/-- `AiMatrixToUEMatrix` (AssetLoader.cpp lines 581-590): the UE matrix is the transpose
of the assimp matrix, built row by row as `{{a1,b1,c1,d1}, ..., {a4,b4,c4,d4}}`. -/
def AiMatrixToUEMatrix (AiMatrix4x4 : Mat4) : Mat4 :=
  let M := AiMatrix4x4
  ⟨M.a1, M.b1, M.c1, M.d1,
   M.a2, M.b2, M.c2, M.d2,
   M.a3, M.b3, M.c3, M.d3,
   M.a4, M.b4, M.c4, M.d4⟩

/-- The `for each sections` loop of the recursive `ConstructMeshData` overload
(AssetLoader.cpp lines 383-562): one section per mesh index of the node, each extracted
from `AiScene.mMeshes[AiMeshIndex]`. -/
def constructSections (AiSceneArg : AiScene) :
    List ℕ → Except FatalError (List FLoadedMeshSectionData)
  | [] => pure []
  | AiMeshIndex :: rest => do
    let Section ← constructSectionFromAiMesh (AiSceneArg.mMeshes.getD AiMeshIndex default)
    let Sections ← constructSections AiSceneArg rest
    pure (Section :: Sections)

/-- The node record appended by the recursive `ConstructMeshData` overload
(AssetLoader.cpp lines 367-386): name and transform converted from the `aiNode`, the
extracted sections, and the supplied parent index. -/
def makeLoadedMeshNode (nm : String) (tf : Mat4)
    (Sections : List FLoadedMeshSectionData) (ParentNodeIndex : ℤ) : FLoadedMeshNode :=
  { Name := nm
    RelativeTransform := AiMatrixToUEMatrix tf
    Sections := Sections
    ParentNodeIndex := ParentNodeIndex }

/-- The recursive overload `ConstructMeshData(AiScene, AiNode, MeshData, ParentNodeIndex)`
(AssetLoader.cpp lines 365-579), rendered as a recursion over a forest: processing
`n :: rest` appends `n`'s node record, recurses into `n`'s children with this node's
freshly assigned index (`NodeList.Num() - 1`), then processes `rest` with the original
parent index.  The accumulated `MeshData.NodeList` is threaded through. -/
def ConstructMeshDataNodes (AiSceneArg : AiScene) :
    List AiNode → List FLoadedMeshNode → ℤ → Except FatalError (List FLoadedMeshNode)
  | [], NodeList, _ => pure NodeList
  | .mk nm tf meshIdxs children :: rest, NodeList, ParentNodeIndex => do
    let Sections ← constructSections AiSceneArg meshIdxs
    let NodeListWithNode := NodeList ++ [makeLoadedMeshNode nm tf Sections ParentNodeIndex]
    let NodeIndex : ℤ := (NodeListWithNode.length : ℤ) - 1
    let NodeListWithChildren ←
      ConstructMeshDataNodes AiSceneArg children NodeListWithNode NodeIndex
    ConstructMeshDataNodes AiSceneArg rest NodeListWithChildren ParentNodeIndex

/-- The scene-level `ConstructMeshData(AiScene)` (AssetLoader.cpp lines 158-174):
transform the scene to the UE coordinate system, generate the material list, then
construct the node list starting from the root with parent index `-1`. -/
def ConstructMeshData (c s : ℚ) (compress : ℕ → ℕ → List ℕ → List ℕ)
    (AiSceneArg : AiScene) : Except FatalError FLoadedMeshData := do
  let scene := TransformToUECoordinateSystem c s AiSceneArg
  let MaterialList ← GenerateMaterialList compress scene
  let NodeList ← ConstructMeshDataNodes scene [scene.mRootNode] [] (-1)
  pure { NodeList := NodeList, MaterialList := MaterialList }

/-- Result enum of `LoadMeshFromAssetFile` (`ELoadMeshFromAssetFileResult`). -/
inductive ELoadMeshFromAssetFileResult where
  | Success : ELoadMeshFromAssetFileResult
  | Failure : ELoadMeshFromAssetFileResult
deriving DecidableEq, Repr

/-- Result enum of `LoadMeshFromAssetData` (`ELoadMeshFromAssetDataResult`). -/
inductive ELoadMeshFromAssetDataResult where
  | Success : ELoadMeshFromAssetDataResult
  | Failure : ELoadMeshFromAssetDataResult
deriving DecidableEq, Repr

/-- `UAssetLoader::LoadMeshFromAssetFile` (AssetLoader.cpp lines 86-109).  The external
importer call `LoadAiScene(AiImporter, FilePath)` is represented by its result
`importResult` (`none` = null scene).  The function returns the pair (return value,
final value of the `LoadMeshFromAssetFileResult` out-parameter); the out-parameter's
incoming value is the argument `LoadMeshFromAssetFileResult`, and the function only
ever assigns it on the failure branch. -/
def LoadMeshFromAssetFile (c s : ℚ) (compress : ℕ → ℕ → List ℕ → List ℕ)
    (importResult : Option AiScene)
    (LoadMeshFromAssetFileResult : ELoadMeshFromAssetFileResult) :
    Except FatalError (FLoadedMeshData × ELoadMeshFromAssetFileResult) :=
  match importResult with
  | none => pure ({}, .Failure)
  | some AiSceneVal => do
    let MeshData ← ConstructMeshData c s compress AiSceneVal
    pure (MeshData, LoadMeshFromAssetFileResult)

/-- `UAssetLoader::LoadMeshFromAssetData` (AssetLoader.cpp lines 111-134); identical to
`LoadMeshFromAssetFile` except that the importer reads from memory and the result enum
is `ELoadMeshFromAssetDataResult`. -/
def LoadMeshFromAssetData (c s : ℚ) (compress : ℕ → ℕ → List ℕ → List ℕ)
    (importResult : Option AiScene)
    (LoadMeshFromAssetDataResult : ELoadMeshFromAssetDataResult) :
    Except FatalError (FLoadedMeshData × ELoadMeshFromAssetDataResult) :=
  match importResult with
  | none => pure ({}, .Failure)
  | some AiSceneVal => do
    let MeshData ← ConstructMeshData c s compress AiSceneVal
    pure (MeshData, LoadMeshFromAssetDataResult)

/-! ### AssetConstructorHelpers.cpp: material instances -/

/-- A dynamic material instance, summarised by the parameter assignments
`GenerateMaterialInstances` (AssetConstructorHelpers.cpp) performs on it.  For
`TextureIsSet` the stored bytes are the buffer handed to the external
`FImageUtils::ImportBufferAsTexture2D`. -/
inductive UMaterialInstanceDynamic where
  /-- `EColorStatus::None`: an error is logged, no parameter is assigned. -/
  | noParameterSet : UMaterialInstanceDynamic
  /-- `ColorIsSet`: blend intensity set to 0 and `BaseColor4` set to the color. -/
  | colorParameterSet : LinearColor → UMaterialInstanceDynamic
  /-- `TextureIsSet`: blend intensity set to 1 and `BaseColorTexture` set from the
  compressed texture bytes. -/
  | textureParameterSet : List ℕ → UMaterialInstanceDynamic
  /-- `TextureWasSetButError`: a warning is logged and the texture assignment skipped. -/
  | textureSkippedAfterLoadError : UMaterialInstanceDynamic
deriving DecidableEq, Repr

/-- `GenerateMaterialInstances` (AssetConstructorHelpers.cpp lines 8-98): one instance
per material data, dispatching on `ColorStatus`. -/
def GenerateMaterialInstances (MaterialDataList : List FLoadedMaterialData) :
    List UMaterialInstanceDynamic :=
  MaterialDataList.map (fun MaterialData =>
    match MaterialData.ColorStatus with
    | .none => .noParameterSet
    | .colorIsSet => .colorParameterSet MaterialData.Color
    | .textureIsSet => .textureParameterSet MaterialData.CompressedTextureData
    | .textureWasSetButError => .textureSkippedAfterLoadError)

/-! ### Hierarchical reconstruction (AssetConstructorHelpers.h / AssetConstructor.cpp) -/

/-- Reading `MaterialInstances[Section.MaterialIndex]` with a C++ `int` index: a
negative or out-of-range index reads no valid instance (`none`). -/
def getMaterialInstanceAt (MaterialInstances : List UMaterialInstanceDynamic)
    (MaterialIndex : ℤ) : Option UMaterialInstanceDynamic :=
  if MaterialIndex < 0 then none else MaterialInstances[MaterialIndex.toNat]?

/-- One drawable section created on a mesh component by
`CreateMeshSection_LinearColor(Section_i, ...)` followed by
`SetMaterial(Section_i, MaterialInstances[Section.MaterialIndex])`. -/
structure BuiltMeshSection where
  sectionIndex : ℕ
  sectionData : FLoadedMeshSectionData
  material : Option UMaterialInstanceDynamic
deriving DecidableEq, Repr

/-- The per-node section loop of `ConstructMeshComponentFromMeshData`: section `i` of
the node becomes drawable section `i` with the material looked up by the section's
material index. -/
def buildMeshSections (MaterialInstances : List UMaterialInstanceDynamic)
    (Sections : List FLoadedMeshSectionData) : List BuiltMeshSection :=
  Sections.enum.map (fun e =>
    { sectionIndex := e.1
      sectionData := e.2
      material := getMaterialInstanceAt MaterialInstances e.2.MaterialIndex })

/-- A constructed mesh component.  `attachedTo = none` models the root (no attachment
attempted); `attachedTo = some r` models a non-root component attached to the value
read from `MeshComponentList[ParentNodeIndex]` — `r = some p` when that slot already
held the component created for node `p`, `r = none` when the slot was uninitialized. -/
structure UMeshComponent where
  RelativeTransform : Mat4
  sections : List BuiltMeshSection
  attachedTo : Option (Option ℕ)
  registered : Bool
deriving DecidableEq, Repr

/-- Reading `MeshComponentList[ParentNodeIndex]` (a C++ `int` index into the
`AddUninitialized` component array, modelled as a function to `Option`): negative
indices read no valid component. -/
def readMeshComponentSlot (MeshComponentList : ℕ → Option UMeshComponent) (p : ℤ) :
    Option UMeshComponent :=
  if p < 0 then none else MeshComponentList p.toNat

/-- One iteration of the `for (Node_i = 0; ...)` loop of
`ConstructMeshComponentFromMeshData` (AssetConstructorHelpers.h lines 83-266 and
AssetConstructor.cpp lines 192-345): create the component, set its relative transform,
create one drawable section per section with the material assigned by index, attach it
to the component read from `MeshComponentList[ParentNodeIndex]` unless it is the root
(which is only registered), and store it at slot `Node_i`. -/
def constructMeshComponentStep (NodeList : List FLoadedMeshNode)
    (MaterialInstances : List UMaterialInstanceDynamic)
    (ShouldRegisterComponentToOwner : Bool)
    (MeshComponentList : ℕ → Option UMeshComponent) (Node_i : ℕ) :
    ℕ → Option UMeshComponent :=
  let Node := NodeList.getD Node_i default
  let MeshComponent : UMeshComponent :=
    { RelativeTransform := Node.RelativeTransform
      sections := buildMeshSections MaterialInstances Node.Sections
      attachedTo :=
        if Node_i = 0 then none
        else
          some ((readMeshComponentSlot MeshComponentList Node.ParentNodeIndex).map
            (fun _ => Node.ParentNodeIndex.toNat))
      registered := ShouldRegisterComponentToOwner }
  fun j => if j = Node_i then some MeshComponent else MeshComponentList j

/-- The whole component-construction loop: slots start uninitialized
(`AddUninitialized(NumNodeList)`) and the body runs for `Node_i = 0 .. NumNodeList-1`. -/
def constructMeshComponentLoop (NodeList : List FLoadedMeshNode)
    (MaterialInstances : List UMaterialInstanceDynamic)
    (ShouldRegisterComponentToOwner : Bool) : ℕ → Option UMeshComponent :=
  (List.range NodeList.length).foldl
    (constructMeshComponentStep NodeList MaterialInstances ShouldRegisterComponentToOwner)
    (fun _ => none)

/-- The template `ConstructMeshComponentFromMeshData` of AssetConstructorHelpers.h
(lines 50-270): `check(!MeshData.NodeList.IsEmpty())` at entry, then material-instance
generation and the component loop; returns the slot array together with
`MeshComponentList[0]`.  The compile-time branching on the component type only changes
how the section buffers are baked, not the tree shape, and is not modelled. -/
def ConstructMeshComponentFromMeshData (MeshData : FLoadedMeshData)
    (ShouldRegisterComponentToOwner : Bool) :
    Except FatalError ((ℕ → Option UMeshComponent) × Option UMeshComponent) :=
  if MeshData.NodeList.isEmpty then throw FatalError.emptyNodeList
  else
    let MaterialInstances := GenerateMaterialInstances MeshData.MaterialList
    let MeshComponentList :=
      constructMeshComponentLoop MeshData.NodeList MaterialInstances
        ShouldRegisterComponentToOwner
    pure (MeshComponentList, MeshComponentList 0)

/-- The near-identical template `ConstructMeshComponentFromMeshData` of
AssetConstructor.cpp (lines 156-349): same entry check and same construction loop. -/
def ConstructMeshComponentFromMeshDataAssetConstructor (MeshData : FLoadedMeshData)
    (ShouldRegisterComponentToOwner : Bool) :
    Except FatalError ((ℕ → Option UMeshComponent) × Option UMeshComponent) :=
  if MeshData.NodeList.isEmpty then throw FatalError.emptyNodeList
  else
    let MaterialInstances := GenerateMaterialInstances MeshData.MaterialList
    let MeshComponentList :=
      constructMeshComponentLoop MeshData.NodeList MaterialInstances
        ShouldRegisterComponentToOwner
    pure (MeshComponentList, MeshComponentList 0)

/-! ### Flattened-mode reconstruction
(CreateMeshFromMeshDataOnProceduralMeshComponentLatentAction.cpp) -/

/-- The value held by `ParentCalcTFTask` for node `Node_i` (latent action constructor,
lines 61-78): for the root (`Node_i == 0`) an immediately-completed task holding
`FTransform::Identity`; otherwise the task stored at `CalcTFMatrixTasks[ParentNodeIndex]`,
whose value is `none` when that slot holds no completed task (a default task from
`AddDefaulted`, or a negative index read). -/
def ParentCalcTFTask (CalcTFMatrixTasksSoFar : List (Option Mat4))
    (Node : FLoadedMeshNode) (Node_i : ℕ) : Option Mat4 :=
  if Node_i = 0 then some idMat4
  else if Node.ParentNodeIndex < 0 then none
  else (CalcTFMatrixTasksSoFar[Node.ParentNodeIndex.toNat]?).join

/-- The value computed by `CalcTFTask` for node `Node_i` (latent action constructor,
lines 82-134): `FTransform(RelativeTransform.ToMatrixWithScale() *
ParentTransformToTarget.ToMatrixWithScale())`, i.e. the node's local matrix multiplied
by the parent task's value. -/
def CalcTFTask (CalcTFMatrixTasksSoFar : List (Option Mat4))
    (Node : FLoadedMeshNode) (Node_i : ℕ) : Option Mat4 :=
  (ParentCalcTFTask CalcTFMatrixTasksSoFar Node Node_i).map
    (fun ParentTransformToTarget => Node.RelativeTransform.mul ParentTransformToTarget)

/-- The `for all node in NodeList` loop building `CalcTFMatrixTasks`: slot `Node_i`
receives the value of `CalcTFTask` for node `Node_i`, computed against the slots
already built. -/
def CalcTFMatrixTasksAux :
    List (Option Mat4) → List FLoadedMeshNode → List (Option Mat4)
  | done, [] => done
  | done, Node :: rest =>
    CalcTFMatrixTasksAux (done ++ [CalcTFTask done Node done.length]) rest

/-- The completed values of the `CalcTFMatrixTasks` array for a whole node list. -/
def CalcTFMatrixTasks (NodeList : List FLoadedMeshNode) : List (Option Mat4) :=
  CalcTFMatrixTasksAux [] NodeList

/-- `FTransform::TransformFVector4` applied to a vertex (`FVector` promoted with
`w = 1`): UE applies matrices to row vectors, so the result is
`(v.x, v.y, v.z, 1) * M`, of which the vertex array keeps the `x`/`y`/`z` parts. -/
def TransformFVector4 (M : Mat4) (v : Vec3) : Vec3 :=
  ⟨v.x * M.a1 + v.y * M.b1 + v.z * M.c1 + M.d1,
   v.x * M.a2 + v.y * M.b2 + v.z * M.c2 + M.d2,
   v.x * M.a3 + v.y * M.b3 + v.z * M.c3 + M.d3⟩

/-- The body of `CalcVerticesRelativeToTargetTask` (latent action constructor, lines
159-178): every vertex is re-expressed by `TransformToTarget.TransformFVector4`. -/
def CalcVerticesRelativeToTargetTask (TransformToTarget : Mat4)
    (Vertices : List Vec3) : List Vec3 :=
  Vertices.map (TransformFVector4 TransformToTarget)

/-- The `ToMatrixWithScale()` matrix of a pure-translation `FTransform` in UE's
row-vector convention: identity rotation and scale, translation in the fourth row. -/
def translationUEMatrix (t : Vec3) : Mat4 :=
  ⟨1, 0, 0, 0,
   0, 1, 0, 0,
   0, 0, 1, 0,
   t.x, t.y, t.z, 1⟩

/-- Summary state of the latent action after its constructor ran: the generated
material instances, the completed transform-composition tasks, and the final value of
the shared `MeshSectionIndex` counter (one increment per section of every node). -/
structure FCreateMeshLatentActionState where
  MaterialInstances : List UMaterialInstanceDynamic
  CalcTFMatrixTasksResult : List (Option Mat4)
  MeshSectionIndex : ℕ
deriving DecidableEq, Repr

/-- The constructor of
`FCreateMeshFromMeshDataOnProceduralMeshComponentLatentAction` (lines 7-307):
`check(!InMeshData.NodeList.IsEmpty())` at entry, then material instances, the
transform-composition task graph and one `CreateMeshSection` unit per section with a
globally increasing section index. -/
def FCreateMeshFromMeshDataOnProceduralMeshComponentLatentAction
    (InMeshData : FLoadedMeshData) : Except FatalError FCreateMeshLatentActionState :=
  if InMeshData.NodeList.isEmpty then throw FatalError.emptyNodeList
  else
    pure
      { MaterialInstances := GenerateMaterialInstances InMeshData.MaterialList
        CalcTFMatrixTasksResult := CalcTFMatrixTasks InMeshData.NodeList
        MeshSectionIndex := (InMeshData.NodeList.map (fun n => n.Sections.length)).sum }

/-! ### Claims C1 and C10: loader failure and success paths -/

/-- C1: for every call to `LoadMeshFromAssetFile` or `LoadMeshFromAssetData` in which
the scene importer fails (returns a null scene), the function sets its result
out-parameter to `Failure` and returns the empty default-constructed `FLoadedMeshData`
(`NodeList` empty, `MaterialList` empty), never a partially populated structure. -/
theorem LoadMesh_failure_returns_empty_and_Failure (c s : ℚ)
    (compress : ℕ → ℕ → List ℕ → List ℕ)
    (rFile : ELoadMeshFromAssetFileResult) (rData : ELoadMeshFromAssetDataResult) :
    LoadMeshFromAssetFile c s compress none rFile =
      .ok ({ NodeList := [], MaterialList := [] }, .Failure) ∧
    LoadMeshFromAssetData c s compress none rData =
      .ok ({ NodeList := [], MaterialList := [] }, .Failure) :=
  ⟨rfl, rfl⟩

/-- C10: on the success path of `LoadMeshFromAssetFile` and `LoadMeshFromAssetData`
(importer returns a valid scene) the result out-parameter is never written, so the
returned out-parameter value is exactly the value the caller passed in — stated as: the
out-parameter component of the result equals the incoming value whenever the body
completes (and the body's fatal-assertion outcome is untouched by the out-parameter). -/
theorem LoadMesh_success_preserves_result_out_param (c s : ℚ)
    (compress : ℕ → ℕ → List ℕ → List ℕ) (scene : AiScene)
    (rFile : ELoadMeshFromAssetFileResult) (rData : ELoadMeshFromAssetDataResult) :
    (LoadMeshFromAssetFile c s compress (some scene) rFile).map Prod.snd =
      (ConstructMeshData c s compress scene).map (fun _ => rFile) ∧
    (LoadMeshFromAssetData c s compress (some scene) rData).map Prod.snd =
      (ConstructMeshData c s compress scene).map (fun _ => rData) := by
  cases h : ConstructMeshData c s compress scene <;>
    simp [LoadMeshFromAssetFile, LoadMeshFromAssetData, h, Except.map]

/-! ### Claim C6: coordinate normalizer -/

/-- C6: the coordinate normalizer computes the single matrix
`Scale(unitScale) * RotationX(+90 degrees)` (with `c`/`s` the cosine and sine of
`PI / 2.0f`), where `unitScale` is the scene's `"UnitScaleFactor"` metadata and
defaults to `1.0` when the metadata object or the entry is absent (not an error), and
applies it exactly once by pre-multiplying the source root node's local transform;
every other part of the scene — in particular every other node's transform — is left
unchanged. -/
theorem TransformToUECoordinateSystem_single_matrix_root_only (c s u : ℚ)
    (nm : String) (tf : Mat4) (ms : List ℕ) (ch : List AiNode)
    (meshes : List AiMesh) (mats : List AiMaterial) (texs : List (String × AiTexture))
    (md : Option AiMetadata) :
    GenerateAi_UE_XformMatrix c s ⟨.mk nm tf ms ch, meshes, mats, texs, md⟩ =
      ⟨GetAiUnitScaleFactor ⟨.mk nm tf ms ch, meshes, mats, texs, md⟩, 0, 0, 0,
       0, GetAiUnitScaleFactor ⟨.mk nm tf ms ch, meshes, mats, texs, md⟩ * c,
       -(GetAiUnitScaleFactor ⟨.mk nm tf ms ch, meshes, mats, texs, md⟩ * s), 0,
       0, GetAiUnitScaleFactor ⟨.mk nm tf ms ch, meshes, mats, texs, md⟩ * s,
       GetAiUnitScaleFactor ⟨.mk nm tf ms ch, meshes, mats, texs, md⟩ * c, 0,
       0, 0, 0, 1⟩ ∧
    GetAiUnitScaleFactor ⟨.mk nm tf ms ch, meshes, mats, texs, none⟩ = 1 ∧
    GetAiUnitScaleFactor ⟨.mk nm tf ms ch, meshes, mats, texs, some ⟨none⟩⟩ = 1 ∧
    GetAiUnitScaleFactor ⟨.mk nm tf ms ch, meshes, mats, texs, some ⟨some u⟩⟩ = u ∧
    TransformToUECoordinateSystem c s ⟨.mk nm tf ms ch, meshes, mats, texs, md⟩ =
      ⟨.mk nm
        ((GenerateAi_UE_XformMatrix c s ⟨.mk nm tf ms ch, meshes, mats, texs, md⟩).mul tf)
        ms ch,
       meshes, mats, texs, md⟩ := by
  refine ⟨?_, rfl, rfl, rfl, rfl⟩
  simp only [GenerateAi_UE_XformMatrix, aiMatrix4x4Scaling, aiMatrix4x4RotationX,
    Mat4.mul, Mat4.mk.injEq]
  norm_num

/-! ### Claim C2: diffuse texture referenced but not embedded -/

/-- A material whose single diffuse texture path queries successfully but resolves to
no entry in the scene's embedded-texture table. -/
def textureNotEmbeddedMaterial : AiMaterial :=
  { diffuseTextureCount := 1
    diffuseColor := .failure
    diffuseTexturePath0 := .success "textures/external.png" }

/-- A scene containing only `textureNotEmbeddedMaterial` and an empty embedded-texture
table. -/
def textureNotEmbeddedScene : AiScene :=
  { mRootNode := .mk "RootNode" idMat4 [] []
    mMeshes := []
    mMaterials := [textureNotEmbeddedMaterial]
    mTextures := []
    mMetaData := none }

/-- C2 (code bug): for a material with exactly one diffuse texture whose name does not
resolve to an embedded texture, `GenerateMaterialList` stores no texture payload but
leaves `ColorStatus = TextureIsSet` (assigned before the embedded lookup and never
downgraded) instead of the texture-load-error status the claim — and the
`FLoadedMaterialData` documentation, which promises that `TextureIsSet` implies the
texture bytes are stored — requires. -/
theorem GenerateMaterialList_missing_embedded_texture_keeps_TextureIsSet :
    GenerateMaterialList (fun _ _ d => d) textureNotEmbeddedScene =
      .ok [{ Color := ⟨0, 0, 0, 0⟩
             CompressedTextureData := []
             ColorStatus := .textureIsSet }] ∧
    EColorStatus.textureIsSet ≠ EColorStatus.textureWasSetButError := by
  exact ⟨rfl, by decide⟩

/-! ### Claim C3: absent channels -/

/-- A mesh with three vertices, one triangular face and no authored normals, UVs,
vertex colors or tangents. -/
def noChannelsMesh : AiMesh :=
  { mNumVertices := 3
    mVertices := some [⟨0, 0, 0⟩, ⟨1, 0, 0⟩, ⟨0, 1, 0⟩]
    mNumFaces := 1
    mFaces := some [⟨[0, 1, 2]⟩]
    mNormals := none
    mTextureCoords0 := none
    mColors0 := none
    mTangents := none
    mMaterialIndex := 0 }

/-- C3 (counterexample): for `noChannelsMesh` the normals channel is absent, yet the
extracted section's normals are a length-3 sequence — the length matches the vertex
count instead of being the empty sequence the claim requires (the same holds for the
other channels). -/
theorem constructSection_absent_normals_not_empty :
    noChannelsMesh.HasNormals = false ∧
    noChannelsMesh.mNumVertices = 3 ∧
    (constructSectionFromAiMesh noChannelsMesh).map
      (fun sec => (sec.Normals.length, sec.UV0Channel.length,
        sec.VertexColors0.length, sec.Tangents.length)) = .ok (3, 3, 3, 3) ∧
    (constructSectionFromAiMesh noChannelsMesh).map (fun sec => sec.Normals.isEmpty) =
      .ok false := by
  exact ⟨rfl, rfl, rfl, rfl⟩

/-- Length of a `fillFrom` array: always the requested element count. -/
theorem fillFrom_length {α : Type} [Inhabited α] (data : List α) (n : ℕ) :
    (fillFrom data n).length = n := by
  simp [fillFrom]

/-- C3 (amended): for every mesh section produced by extraction, each channel array
(normals, uv0, vertexColors0, tangents) has length equal to the source mesh's vertex
count — when the channel is absent in the source mesh the entries are merely
uninitialized defaults, so the channel is empty exactly when the mesh has zero
vertices, never the empty sequence for a non-empty mesh. -/
theorem constructSection_channel_lengths_equal_vertex_count (m : AiMesh)
    (sec : FLoadedMeshSectionData) (h : constructSectionFromAiMesh m = .ok sec) :
    sec.Normals.length = m.mNumVertices ∧
    sec.UV0Channel.length = m.mNumVertices ∧
    sec.VertexColors0.length = m.mNumVertices ∧
    sec.Tangents.length = m.mNumVertices := by
  have hnorm : (extractNormals m).length = m.mNumVertices := by
    unfold extractNormals
    split <;> simp [fillFrom_length]
  have huv : (extractUV0Channel m).length = m.mNumVertices := by
    unfold extractUV0Channel
    simp only []
    split
    · split
      · simp
      · split <;> simp [fillFrom_length]
    · simp
  have hcol : (extractVertexColors0 m).length = m.mNumVertices := by
    unfold extractVertexColors0
    simp only []
    split
    · split
      · simp
      · split <;> simp [fillFrom_length]
    · simp
  have htan : (extractTangents m).length = m.mNumVertices := by
    unfold extractTangents
    split <;> simp
  cases htri : extractTriangles m with
  | error e => simp [constructSectionFromAiMesh, htri] at h
  | ok tris =>
    simp [constructSectionFromAiMesh, htri] at h
    subst h
    exact ⟨hnorm, huv, hcol, htan⟩

/-- The section that extraction produces for `noChannelsMesh`. -/
def noChannelsSection : FLoadedMeshSectionData :=
  { Vertices := [⟨0, 0, 0⟩, ⟨1, 0, 0⟩, ⟨0, 1, 0⟩]
    Triangles := [0, 1, 2]
    Normals := List.replicate 3 default
    UV0Channel := List.replicate 3 default
    VertexColors0 := List.replicate 3 default
    Tangents := List.replicate 3 default
    MaterialIndex := 0 }

/-- Witness for the amended C3 theorem: evaluated at `noChannelsMesh`, the section is
produced and all four channels have the vertex count 3 as their length. -/
theorem constructSection_channel_lengths_witness :
    noChannelsSection.Normals.length = noChannelsMesh.mNumVertices ∧
    noChannelsSection.UV0Channel.length = noChannelsMesh.mNumVertices ∧
    noChannelsSection.VertexColors0.length = noChannelsMesh.mNumVertices ∧
    noChannelsSection.Tangents.length = noChannelsMesh.mNumVertices :=
  constructSection_channel_lengths_equal_vertex_count noChannelsMesh noChannelsSection rfl

/-! ### Claim C7: flattened-mode translation chain -/

/-- C7: for a three-node chain root -> A -> B whose local transforms are the pure
translations `T0`, `T1`, `T2` (identity rotation and scale), the flattened-mode
transform composition produces for B a transform that maps B's local origin to
`T0 + T1 + T2`, as re-expressed by the vertex task. -/
theorem CalcTF_three_node_translation_chain_sums (T0 T1 T2 : Vec3) :
    ((CalcTFMatrixTasks
        [{ Name := "root", RelativeTransform := translationUEMatrix T0,
           Sections := [], ParentNodeIndex := -1 },
         { Name := "A", RelativeTransform := translationUEMatrix T1,
           Sections := [], ParentNodeIndex := 0 },
         { Name := "B", RelativeTransform := translationUEMatrix T2,
           Sections := [], ParentNodeIndex := 1 }])[2]?).join.map
      (fun TransformToTarget =>
        CalcVerticesRelativeToTargetTask TransformToTarget [⟨0, 0, 0⟩]) =
      some [⟨T0.x + T1.x + T2.x, T0.y + T1.y + T2.y, T0.z + T1.z + T2.z⟩] := by
  simp only [CalcTFMatrixTasks, CalcTFMatrixTasksAux, CalcTFTask, ParentCalcTFTask,
    translationUEMatrix, Mat4.mul, idMat4, CalcVerticesRelativeToTargetTask,
    TransformFVector4, List.map]
  norm_num [Vec3.mk.injEq]
  refine ⟨by ring, by ring, by ring⟩

/-! ### Claim C8: the flattened-mode transform-composition units -/

/-- C8 (counterexample): the deferred unit keyed by node index 0 does NOT resolve to
the identity transform — only its parent dependency does; the unit itself computes
`localTransform[0] * identity = localTransform[0]`, which differs from the identity as
soon as the root has a non-trivial local transform. -/
theorem CalcTF_root_unit_not_identity :
    (CalcTFMatrixTasks
        [{ Name := "root", RelativeTransform := translationUEMatrix ⟨1, 2, 3⟩,
           Sections := [], ParentNodeIndex := -1 }])[0]? =
      some (some (translationUEMatrix ⟨1, 2, 3⟩)) ∧
    translationUEMatrix (⟨1, 2, 3⟩ : Vec3) ≠ idMat4 := by
  constructor
  · simp only [CalcTFMatrixTasks, CalcTFMatrixTasksAux, CalcTFTask, ParentCalcTFTask,
      translationUEMatrix, Mat4.mul, idMat4]
    norm_num [Mat4.mk.injEq]
  · simp [translationUEMatrix, idMat4, Mat4.mk.injEq]

/-- The parent-before-child index invariant of `FLoadedMeshData.NodeList` as the spec
states it: every non-root node's parent index is smaller than its own index. -/
abbrev ParentBeforeChild (nl : List FLoadedMeshNode) : Prop :=
  ∀ i (h : i < nl.length), 0 < i → (nl[i]).ParentNodeIndex < (i : ℤ)

/-- The strengthening of `ParentBeforeChild` used as precondition by the
reconstruction claims: every non-root node's parent index is a valid index of an
earlier node. -/
abbrev ValidParentIndex (nl : List FLoadedMeshNode) : Prop :=
  ∀ i (h : i < nl.length), 0 < i →
    0 ≤ (nl[i]).ParentNodeIndex ∧ (nl[i]).ParentNodeIndex < (i : ℤ)

/-- Length of the task array built by `CalcTFMatrixTasksAux`. -/
theorem CalcTFMatrixTasksAux_length (xs : List FLoadedMeshNode) :
    ∀ done, (CalcTFMatrixTasksAux done xs).length = done.length + xs.length := by
  induction xs with
  | nil => intro done; simp [CalcTFMatrixTasksAux]
  | cons n rest ih =>
    intro done
    simp [CalcTFMatrixTasksAux, ih]
    omega

/-- `CalcTFMatrixTasksAux` never rewrites slots that are already built. -/
theorem CalcTFMatrixTasksAux_get_of_lt (xs : List FLoadedMeshNode) :
    ∀ done j, j < done.length → (CalcTFMatrixTasksAux done xs)[j]? = done[j]? := by
  induction xs with
  | nil => intro done j _; rfl
  | cons n rest ih =>
    intro done j hj
    rw [CalcTFMatrixTasksAux, ih _ j (by simp; omega)]
    simp [List.getElem?_append, hj]

/-- Processing a concatenated node list processes the two parts in order. -/
theorem CalcTFMatrixTasksAux_append (xs ys : List FLoadedMeshNode) :
    ∀ done, CalcTFMatrixTasksAux done (xs ++ ys) =
      CalcTFMatrixTasksAux (CalcTFMatrixTasksAux done xs) ys := by
  induction xs with
  | nil => intro done; rfl
  | cons n rest ih =>
    intro done
    simp only [List.cons_append, CalcTFMatrixTasksAux]
    exact ih _

/-- The task array of a node-list prefix extended by one node. -/
theorem CalcTFMatrixTasks_take_succ (NodeList : List FLoadedMeshNode) (i : ℕ)
    (h : i < NodeList.length) :
    CalcTFMatrixTasks (NodeList.take (i + 1)) =
      CalcTFMatrixTasks (NodeList.take i) ++
        [CalcTFTask (CalcTFMatrixTasks (NodeList.take i)) NodeList[i] i] := by
  have ht : NodeList.take (i + 1) = NodeList.take i ++ [NodeList[i]] := by
    rw [List.take_succ, List.getElem?_eq_getElem h]
    rfl
  have hlen : (CalcTFMatrixTasks (NodeList.take i)).length = i := by
    rw [CalcTFMatrixTasks, CalcTFMatrixTasksAux_length]
    simp [Nat.le_of_lt h]
  rw [CalcTFMatrixTasks, ht, CalcTFMatrixTasksAux_append]
  rw [CalcTFMatrixTasks] at hlen ⊢
  rw [CalcTFMatrixTasksAux, CalcTFMatrixTasksAux, hlen]

/-- Slots below a prefix length agree between the prefix's and the full task array. -/
theorem CalcTFMatrixTasks_prefix_agree (NodeList : List FLoadedMeshNode) (i j : ℕ)
    (hj : j < i) (hi : i ≤ NodeList.length) :
    (CalcTFMatrixTasks (NodeList.take i))[j]? = (CalcTFMatrixTasks NodeList)[j]? := by
  have hfull : CalcTFMatrixTasks NodeList =
      CalcTFMatrixTasksAux (CalcTFMatrixTasks (NodeList.take i)) (NodeList.drop i) := by
    rw [CalcTFMatrixTasks, CalcTFMatrixTasks, ← CalcTFMatrixTasksAux_append,
      List.take_append_drop]
  rw [hfull, CalcTFMatrixTasksAux_get_of_lt]
  rw [CalcTFMatrixTasks, CalcTFMatrixTasksAux_length]
  simp
  omega

/-- The value of slot `i` of the task array: the `CalcTFTask` value computed against
the slots already built for the first `i` nodes. -/
theorem CalcTFMatrixTasks_get (NodeList : List FLoadedMeshNode) (i : ℕ)
    (h : i < NodeList.length) :
    (CalcTFMatrixTasks NodeList)[i]? =
      some (CalcTFTask (CalcTFMatrixTasks (NodeList.take i)) NodeList[i] i) := by
  have hlen : (CalcTFMatrixTasks (NodeList.take i)).length = i := by
    rw [CalcTFMatrixTasks, CalcTFMatrixTasksAux_length]
    simp [Nat.le_of_lt h]
  rw [← CalcTFMatrixTasks_prefix_agree NodeList (i + 1) i (Nat.lt_succ_self i) h,
    CalcTFMatrixTasks_take_succ NodeList i h]
  rw [List.getElem?_append_right (by omega), hlen]
  simp

/-- Under the valid-parent-index invariant, every transform-composition slot completes
with a value (no unit ever reads a default or out-of-range task). -/
theorem CalcTFMatrixTasks_complete (NodeList : List FLoadedMeshNode)
    (hinv : ValidParentIndex NodeList) :
    ∀ i, i < NodeList.length →
      ∃ M, (CalcTFMatrixTasks NodeList)[i]? = some (some M) := by
  intro i
  induction i using Nat.strong_induction_on with
  | _ i IH =>
    intro h
    rw [CalcTFMatrixTasks_get NodeList i h]
    by_cases h0 : i = 0
    · subst h0
      exact ⟨(NodeList[0]).RelativeTransform.mul idMat4, by simp [CalcTFTask, ParentCalcTFTask]⟩
    · obtain ⟨hp0, hpi⟩ := hinv i h (Nat.pos_of_ne_zero h0)
      set p := (NodeList[i]).ParentNodeIndex with hp
      have hptn : p.toNat < i := by omega
      obtain ⟨Mp, hMp⟩ := IH p.toNat hptn (lt_trans hptn h)
      refine ⟨(NodeList[i]).RelativeTransform.mul Mp, ?_⟩
      rw [CalcTFTask, ParentCalcTFTask]
      rw [if_neg h0, if_neg (by omega)]
      rw [CalcTFMatrixTasks_prefix_agree NodeList i p.toNat hptn (Nat.le_of_lt h), hMp]
      rfl

/-- C8 (amended): in flattened-mode reconstruction the deferred unit for node 0 has an
immediately-resolved parent dependency holding the identity transform and therefore
computes `composed[0] = localTransform[0] * identity`; for every node `i > 0` the unit
depends on the unit for `parentNodeIndex[i]` and on completion computes
`composed[i] = localTransform[i] * composed[parentNodeIndex[i]]` (the product taken in
UE's row-vector matrix convention). -/
theorem CalcTFMatrixTasks_parent_recurrence (NodeList : List FLoadedMeshNode)
    (hinv : ValidParentIndex NodeList) :
    (CalcTFMatrixTasks NodeList).length = NodeList.length ∧
    (∀ h0 : 0 < NodeList.length,
      (CalcTFMatrixTasks NodeList)[0]? =
        some (some ((NodeList[0]).RelativeTransform.mul idMat4))) ∧
    (∀ i (h : i < NodeList.length), 0 < i →
      ∃ Mp,
        (CalcTFMatrixTasks NodeList)[(NodeList[i]).ParentNodeIndex.toNat]? =
          some (some Mp) ∧
        (CalcTFMatrixTasks NodeList)[i]? =
          some (some ((NodeList[i]).RelativeTransform.mul Mp))) := by
  refine ⟨?_, ?_, ?_⟩
  · rw [CalcTFMatrixTasks, CalcTFMatrixTasksAux_length]
    simp
  · intro h0
    rw [CalcTFMatrixTasks_get NodeList 0 h0]
    simp [CalcTFTask, ParentCalcTFTask]
  · intro i h hi
    obtain ⟨hp0, hpi⟩ := hinv i h hi
    set p := (NodeList[i]).ParentNodeIndex with hp
    have hptn : p.toNat < i := by omega
    obtain ⟨Mp, hMp⟩ := CalcTFMatrixTasks_complete NodeList hinv p.toNat (lt_trans hptn h)
    refine ⟨Mp, hMp, ?_⟩
    rw [CalcTFMatrixTasks_get NodeList i h, CalcTFTask, ParentCalcTFTask]
    rw [if_neg (by omega), if_neg (by omega)]
    rw [CalcTFMatrixTasks_prefix_agree NodeList i p.toNat hptn (Nat.le_of_lt h), hMp]
    rfl

/-- A concrete two-node parent/child chain used to witness the recurrence theorem. -/
def twoNodeChain : List FLoadedMeshNode :=
  [{ Name := "root", RelativeTransform := translationUEMatrix ⟨1, 0, 0⟩,
     Sections := [], ParentNodeIndex := -1 },
   { Name := "child", RelativeTransform := translationUEMatrix ⟨0, 1, 0⟩,
     Sections := [], ParentNodeIndex := 0 }]

/-- Witness for the amended C8 theorem, evaluated on `twoNodeChain`: both units
complete, node 0 with `local[0] * identity` and node 1 with `local[1] * composed[0]`. -/
theorem CalcTFMatrixTasks_parent_recurrence_witness :
    (CalcTFMatrixTasks twoNodeChain).length = 2 ∧
    (CalcTFMatrixTasks twoNodeChain)[0]? =
      some (some ((translationUEMatrix ⟨1, 0, 0⟩).mul idMat4)) ∧
    (CalcTFMatrixTasks twoNodeChain)[1]? =
      some (some ((translationUEMatrix ⟨0, 1, 0⟩).mul
        ((translationUEMatrix ⟨1, 0, 0⟩).mul idMat4))) := by
  have h := CalcTFMatrixTasks_parent_recurrence twoNodeChain (by decide)
  have h0 : (CalcTFMatrixTasks twoNodeChain)[0]? =
      some (some ((translationUEMatrix ⟨1, 0, 0⟩).mul idMat4)) := h.2.1 (by decide)
  obtain ⟨Mp, h1, h2⟩ := h.2.2 1 (by decide) (by decide)
  have h1' : (CalcTFMatrixTasks twoNodeChain)[0]? = some (some Mp) := h1
  have hM : Mp = (translationUEMatrix ⟨1, 0, 0⟩).mul idMat4 := by
    simpa using h1'.symm.trans h0
  rw [hM] at h2
  exact ⟨h.1, h0, h2⟩

/-! ### Claim C4: depth-first extraction respects parent-before-child ordering -/

/-- Appending a node whose parent index is below the current length preserves the
parent-before-child invariant. -/
theorem ParentBeforeChild_append_node (acc : List FLoadedMeshNode)
    (Node : FLoadedMeshNode) (hacc : ParentBeforeChild acc)
    (hp : Node.ParentNodeIndex < (acc.length : ℤ)) :
    ParentBeforeChild (acc ++ [Node]) := by
  intro i h hi
  rcases Nat.lt_or_ge i acc.length with hlt | hge
  · rw [List.getElem_append_left hlt]
    exact hacc i hlt hi
  · have hieq : i = acc.length := by
      have hlen : i < acc.length + 1 := by simpa using h
      omega
    subst hieq
    rw [List.getElem_append_right hge]
    simpa using hp

/-- Core induction for `ConstructMeshDataNodes`: a successful run only appends new
nodes to the accumulated list, and, whenever the accumulator already satisfies the
parent-before-child invariant and the supplied parent index lies below the
accumulator's length, the result satisfies the invariant as well. -/
theorem ConstructMeshDataNodes_extends_and_invariant (AiSceneArg : AiScene)
    (ns : List AiNode) (acc : List FLoadedMeshNode) (p : ℤ) :
    ∀ res, ConstructMeshDataNodes AiSceneArg ns acc p = .ok res →
      (∃ ext, res = acc ++ ext) ∧
      (ParentBeforeChild acc → p < (acc.length : ℤ) → ParentBeforeChild res) := by
  induction ns, acc, p using ConstructMeshDataNodes.induct AiSceneArg with
  | case1 acc p =>
    intro res heq
    replace heq : acc = res := by
      simpa [ConstructMeshDataNodes, pure, Except.pure] using heq
    subst heq
    exact ⟨⟨[], by simp⟩, fun hinv _ => hinv⟩
  | case2 nm tf meshIdxs children rest acc ParentNodeIndex IH1 IH2 =>
    intro res heq
    rw [ConstructMeshDataNodes] at heq
    cases hsec : constructSections AiSceneArg meshIdxs with
    | error e => simp [hsec, bind, Except.bind] at heq
    | ok Sections =>
      simp only [hsec, bind, Except.bind] at heq
      cases hch : ConstructMeshDataNodes AiSceneArg children
          (acc ++ [makeLoadedMeshNode nm tf Sections ParentNodeIndex])
          ((acc ++ [makeLoadedMeshNode nm tf Sections ParentNodeIndex]).length - 1 : ℤ) with
      | error e => rw [hch] at heq; exact absurd heq (by simp)
      | ok NL2 =>
        rw [hch] at heq
        obtain ⟨⟨ext1, hext1⟩, hinv1⟩ := IH1 Sections NL2 hch
        obtain ⟨⟨ext2, hext2⟩, hinv2⟩ := IH2 NL2 res heq
        constructor
        · exact ⟨[makeLoadedMeshNode nm tf Sections ParentNodeIndex] ++ ext1 ++ ext2, by
            rw [hext2, hext1]; simp⟩
        · intro hacc hp
          have hinvNode : ParentBeforeChild
              (acc ++ [makeLoadedMeshNode nm tf Sections ParentNodeIndex]) :=
            ParentBeforeChild_append_node acc _ hacc hp
          have hinvNL2 : ParentBeforeChild NL2 := by
            apply hinv1 hinvNode
            simp
          apply hinv2 hinvNL2
          have hlen : (acc ++ [makeLoadedMeshNode nm tf Sections ParentNodeIndex]).length ≤
              NL2.length := by
            rw [hext1]; simp
          simp only [List.length_append, List.length_cons, List.length_nil] at hlen ⊢
          omega

/-- Successful processing of a node places that node's record right after the
accumulated list, before anything contributed by its children or later siblings. -/
theorem ConstructMeshDataNodes_cons_head (AiSceneArg : AiScene) (nm : String) (tf : Mat4)
    (meshIdxs : List ℕ) (children rest : List AiNode) (acc : List FLoadedMeshNode)
    (p : ℤ) (res : List FLoadedMeshNode)
    (heq : ConstructMeshDataNodes AiSceneArg (.mk nm tf meshIdxs children :: rest) acc p
      = .ok res) :
    ∃ Sections ext, constructSections AiSceneArg meshIdxs = .ok Sections ∧
      res = acc ++ makeLoadedMeshNode nm tf Sections p :: ext := by
  rw [ConstructMeshDataNodes] at heq
  cases hsec : constructSections AiSceneArg meshIdxs with
  | error e => simp [hsec, bind, Except.bind] at heq
  | ok Sections =>
    simp only [hsec, bind, Except.bind] at heq
    cases hch : ConstructMeshDataNodes AiSceneArg children
        (acc ++ [makeLoadedMeshNode nm tf Sections p])
        ((acc ++ [makeLoadedMeshNode nm tf Sections p]).length - 1 : ℤ) with
    | error e => rw [hch] at heq; exact absurd heq (by simp)
    | ok NL2 =>
      rw [hch] at heq
      obtain ⟨ext1, hext1⟩ :=
        (ConstructMeshDataNodes_extends_and_invariant AiSceneArg children _ _ NL2 hch).1
      obtain ⟨ext2, hext2⟩ :=
        (ConstructMeshDataNodes_extends_and_invariant AiSceneArg rest _ _ res heq).1
      exact ⟨Sections, ext1 ++ ext2, rfl, by rw [hext2, hext1]; simp⟩

/-- C4: every `FLoadedMeshData` produced by extraction has a non-empty `NodeList` whose
index 0 is the (coordinate-transformed) root node's record with parent index `-1`
(depth-first pre-order puts the root first), and every node at index `i > 0` has
`ParentNodeIndex < i` — parents always precede their children in the flat list. -/
theorem ConstructMeshData_nodeList_parent_before_child (c s : ℚ)
    (compress : ℕ → ℕ → List ℕ → List ℕ) (AiSceneArg : AiScene) (md : FLoadedMeshData)
    (h : ConstructMeshData c s compress AiSceneArg = .ok md) :
    md.NodeList ≠ [] ∧
    (md.NodeList.getD 0 default).ParentNodeIndex = -1 ∧
    (md.NodeList.getD 0 default).Name =
      (TransformToUECoordinateSystem c s AiSceneArg).mRootNode.mName ∧
    (md.NodeList.getD 0 default).RelativeTransform =
      AiMatrixToUEMatrix
        (TransformToUECoordinateSystem c s AiSceneArg).mRootNode.mTransformation ∧
    ParentBeforeChild md.NodeList := by
  rw [ConstructMeshData] at h
  cases hmat : GenerateMaterialList compress (TransformToUECoordinateSystem c s AiSceneArg) with
  | error e => simp [hmat, bind, Except.bind] at h
  | ok MaterialList =>
    simp only [hmat, bind, Except.bind] at h
    cases hnl : ConstructMeshDataNodes (TransformToUECoordinateSystem c s AiSceneArg)
        [(TransformToUECoordinateSystem c s AiSceneArg).mRootNode] [] (-1) with
    | error e => rw [hnl] at h; exact absurd h (by simp)
    | ok NodeList =>
      rw [hnl] at h
      replace h : ({ NodeList := NodeList, MaterialList := MaterialList } : FLoadedMeshData)
          = md := by
        simpa [pure, Except.pure] using h
      subst h
      have hpbc : ParentBeforeChild NodeList :=
        (ConstructMeshDataNodes_extends_and_invariant _ _ _ _ NodeList hnl).2
          (fun i hi h0 => by simp at hi) (by simp)
      cases hroot : (TransformToUECoordinateSystem c s AiSceneArg).mRootNode with
      | mk nm tf ms ch =>
        rw [hroot] at hnl
        obtain ⟨Sections, ext, _, hres⟩ :=
          ConstructMeshDataNodes_cons_head _ nm tf ms ch [] [] (-1) NodeList hnl
        rw [List.nil_append] at hres
        subst hres
        refine ⟨by simp, rfl, ?_, rfl, hpbc⟩
        simp [makeLoadedMeshNode, hroot, AiNode.mName]

/-- A minimal scene: a root node with no meshes, no children, no materials and no
metadata. -/
def emptyScene : AiScene :=
  { mRootNode := .mk "RootNode" idMat4 [] []
    mMeshes := []
    mMaterials := []
    mTextures := []
    mMetaData := none }

/-- The mesh data that extraction produces for `emptyScene` (with `c = 0`, `s = 1`). -/
def emptySceneMeshData : FLoadedMeshData :=
  { NodeList :=
      [makeLoadedMeshNode "RootNode"
        ((GenerateAi_UE_XformMatrix 0 1 emptyScene).mul idMat4) [] (-1)]
    MaterialList := [] }

/-- Witness for the C4 theorem, evaluated on `emptyScene`. -/
theorem ConstructMeshData_parent_before_child_witness :
    emptySceneMeshData.NodeList ≠ [] ∧
    (emptySceneMeshData.NodeList.getD 0 default).ParentNodeIndex = -1 ∧
    (emptySceneMeshData.NodeList.getD 0 default).Name =
      (TransformToUECoordinateSystem 0 1 emptyScene).mRootNode.mName ∧
    (emptySceneMeshData.NodeList.getD 0 default).RelativeTransform =
      AiMatrixToUEMatrix
        (TransformToUECoordinateSystem 0 1 emptyScene).mRootNode.mTransformation ∧
    ParentBeforeChild emptySceneMeshData.NodeList :=
  ConstructMeshData_nodeList_parent_before_child 0 1 (fun _ _ d => d) emptyScene
    emptySceneMeshData (by
      simp [ConstructMeshData, ConstructMeshDataNodes, GenerateMaterialList,
        List.mapM.loop, constructSections, emptySceneMeshData, makeLoadedMeshNode,
        bind, Except.bind, pure, Except.pure, TransformToUECoordinateSystem,
        emptyScene])

/-! ### Claim C5: hierarchical reconstruction builds the encoded tree -/

/-- Closed form of the component the construction loop creates for node `j` when the
node list satisfies the valid-parent-index invariant. -/
def constructedComponent (NodeList : List FLoadedMeshNode)
    (MaterialInstances : List UMaterialInstanceDynamic)
    (ShouldRegisterComponentToOwner : Bool) (j : ℕ) : UMeshComponent :=
  let Node := NodeList.getD j default
  { RelativeTransform := Node.RelativeTransform
    sections := buildMeshSections MaterialInstances Node.Sections
    attachedTo := if j = 0 then none else some (some Node.ParentNodeIndex.toNat)
    registered := ShouldRegisterComponentToOwner }

/-- Characterisation of the partially-run construction loop: after the first `k`
iterations, slots `j < k` hold the closed-form component for node `j` and all other
slots are still uninitialized. -/
theorem constructMeshComponentLoop_upTo (NodeList : List FLoadedMeshNode)
    (MaterialInstances : List UMaterialInstanceDynamic) (flag : Bool)
    (hinv : ValidParentIndex NodeList) :
    ∀ k, k ≤ NodeList.length → ∀ j,
      ((List.range k).foldl
        (constructMeshComponentStep NodeList MaterialInstances flag) (fun _ => none)) j =
        if j < k then some (constructedComponent NodeList MaterialInstances flag j)
        else none := by
  intro k
  induction k with
  | zero => intro _ j; simp
  | succ k ih =>
    intro hk j
    rw [List.range_succ, List.foldl_append, List.foldl_cons, List.foldl_nil]
    have hkn : k < NodeList.length := Nat.lt_of_succ_le hk
    have ihk := ih (Nat.le_of_lt hkn)
    simp only [constructMeshComponentStep]
    by_cases hj : j = k
    · subst hj
      rw [if_pos rfl, if_pos (Nat.lt_succ_self j)]
      simp only [constructedComponent]
      by_cases h0 : j = 0
      · simp [h0]
      · obtain ⟨hp0, hpj⟩ := hinv j hkn (Nat.pos_of_ne_zero h0)
        have hptn : (NodeList[j]).ParentNodeIndex.toNat < j := by omega
        rw [if_neg h0, if_neg h0]
        have hread : readMeshComponentSlot
            ((List.range j).foldl
              (constructMeshComponentStep NodeList MaterialInstances flag)
              (fun _ => none))
            (NodeList.getD j default).ParentNodeIndex =
            some (constructedComponent NodeList MaterialInstances flag
              (NodeList.getD j default).ParentNodeIndex.toNat) := by
          rw [readMeshComponentSlot, if_neg (by rw [List.getD_eq_getElem _ _ hkn]; omega)]
          rw [ihk, if_pos (by rw [List.getD_eq_getElem _ _ hkn]; omega)]
        rw [hread]
        simp
    · rw [if_neg hj, ihk j]
      rcases Nat.lt_trichotomy j k with h | h | h
      · rw [if_pos h, if_pos (by omega)]
      · exact absurd h hj
      · rw [if_neg (by omega), if_neg (by omega)]

/-- C5: for every `FLoadedMeshData` whose `NodeList` is non-empty and satisfies the
parent-before-child index invariant (with valid parent indices), both hierarchical
reconstruction templates run their fatal entry checks successfully and create exactly
one mesh component per node in `NodeList` order (no further slots are filled), each
with its local transform set to the node's `RelativeTransform` and one drawable
section per section with the material assigned by the section's material index; the
root is attached to nothing and every non-root component is attached to the component
created for its `ParentNodeIndex` — which at that moment already exists — so the
output tree has exactly the parent/child shape encoded by `ParentNodeIndex`. -/
theorem ConstructMeshComponentFromMeshData_builds_encoded_tree
    (MeshData : FLoadedMeshData) (flag : Bool) (h1 : MeshData.NodeList ≠ [])
    (h2 : ValidParentIndex MeshData.NodeList) :
    ConstructMeshComponentFromMeshData MeshData flag =
      .ok (constructMeshComponentLoop MeshData.NodeList
            (GenerateMaterialInstances MeshData.MaterialList) flag,
          constructMeshComponentLoop MeshData.NodeList
            (GenerateMaterialInstances MeshData.MaterialList) flag 0) ∧
    ConstructMeshComponentFromMeshDataAssetConstructor MeshData flag =
      .ok (constructMeshComponentLoop MeshData.NodeList
            (GenerateMaterialInstances MeshData.MaterialList) flag,
          constructMeshComponentLoop MeshData.NodeList
            (GenerateMaterialInstances MeshData.MaterialList) flag 0) ∧
    (∀ j, MeshData.NodeList.length ≤ j →
      constructMeshComponentLoop MeshData.NodeList
        (GenerateMaterialInstances MeshData.MaterialList) flag j = none) ∧
    (∀ j (hj : j < MeshData.NodeList.length),
      constructMeshComponentLoop MeshData.NodeList
        (GenerateMaterialInstances MeshData.MaterialList) flag j =
        some
          { RelativeTransform := (MeshData.NodeList[j]).RelativeTransform
            sections := buildMeshSections (GenerateMaterialInstances MeshData.MaterialList)
              (MeshData.NodeList[j]).Sections
            attachedTo :=
              if j = 0 then none
              else some (some ((MeshData.NodeList[j]).ParentNodeIndex.toNat))
            registered := flag }) := by
  have hchar := constructMeshComponentLoop_upTo MeshData.NodeList
    (GenerateMaterialInstances MeshData.MaterialList) flag h2 MeshData.NodeList.length
    (Nat.le_refl _)
  refine ⟨?_, ?_, ?_, ?_⟩
  · simp [ConstructMeshComponentFromMeshData, h1, pure, Except.pure]
  · simp [ConstructMeshComponentFromMeshDataAssetConstructor, h1, pure, Except.pure]
  · intro j hj
    rw [constructMeshComponentLoop, hchar j, if_neg (by omega)]
  · intro j hj
    rw [constructMeshComponentLoop, hchar j, if_pos hj]
    have hg : MeshData.NodeList[j]? = some (MeshData.NodeList[j]) :=
      List.getElem?_eq_getElem hj
    simp [constructedComponent, hg]

/-- The two-node chain packaged as an `FLoadedMeshData` (no materials). -/
def twoNodeMeshData : FLoadedMeshData :=
  { NodeList := twoNodeChain, MaterialList := [] }

/-- Witness for the C5 theorem, evaluated on `twoNodeMeshData`: both entry points
succeed, slot 2 stays empty, and the child component is attached to the root's
component (slot 0) with its own transform. -/
theorem ConstructMeshComponentFromMeshData_builds_encoded_tree_witness :
    ConstructMeshComponentFromMeshData twoNodeMeshData true =
      .ok (constructMeshComponentLoop twoNodeMeshData.NodeList
            (GenerateMaterialInstances twoNodeMeshData.MaterialList) true,
          constructMeshComponentLoop twoNodeMeshData.NodeList
            (GenerateMaterialInstances twoNodeMeshData.MaterialList) true 0) ∧
    constructMeshComponentLoop twoNodeMeshData.NodeList
      (GenerateMaterialInstances twoNodeMeshData.MaterialList) true 2 = none ∧
    constructMeshComponentLoop twoNodeMeshData.NodeList
      (GenerateMaterialInstances twoNodeMeshData.MaterialList) true 1 =
      some
        { RelativeTransform := translationUEMatrix ⟨0, 1, 0⟩
          sections := []
          attachedTo := some (some 0)
          registered := true } := by
  have h := ConstructMeshComponentFromMeshData_builds_encoded_tree twoNodeMeshData true
    (by decide) (by decide)
  exact ⟨h.1, h.2.2.1 2 (by decide), h.2.2.2 1 (by decide)⟩

/-! ### Claim C9: entry checks of the reconstruction entry points -/

/-- C9: every reconstruction entry point — the two hierarchical construction templates
and the flattened-mode latent action — checks at entry, as a fatal assertion, that the
input's `NodeList` is non-empty (an empty list makes each of them fail with exactly
that assertion), and under the precondition that the caller passes a non-empty
`NodeList` this failure branch is unreachable: each entry point completes. -/
theorem reconstruction_entry_checks_nonempty_nodeList (MeshData : FLoadedMeshData)
    (flag : Bool) :
    (MeshData.NodeList = [] →
      ConstructMeshComponentFromMeshData MeshData flag =
        .error FatalError.emptyNodeList ∧
      ConstructMeshComponentFromMeshDataAssetConstructor MeshData flag =
        .error FatalError.emptyNodeList ∧
      FCreateMeshFromMeshDataOnProceduralMeshComponentLatentAction MeshData =
        .error FatalError.emptyNodeList) ∧
    (MeshData.NodeList ≠ [] →
      (ConstructMeshComponentFromMeshData MeshData flag).isOk = true ∧
      (ConstructMeshComponentFromMeshDataAssetConstructor MeshData flag).isOk = true ∧
      (FCreateMeshFromMeshDataOnProceduralMeshComponentLatentAction MeshData).isOk
        = true) := by
  constructor
  · intro hempty
    refine ⟨?_, ?_, ?_⟩ <;>
      simp [ConstructMeshComponentFromMeshData,
        ConstructMeshComponentFromMeshDataAssetConstructor,
        FCreateMeshFromMeshDataOnProceduralMeshComponentLatentAction, hempty, throw,
        throwThe, MonadExceptOf.throw]
  · intro hne
    refine ⟨?_, ?_, ?_⟩ <;>
      simp [ConstructMeshComponentFromMeshData,
        ConstructMeshComponentFromMeshDataAssetConstructor,
        FCreateMeshFromMeshDataOnProceduralMeshComponentLatentAction, hne, pure,
        Except.pure, Except.isOk, Except.toBool]

/-- Witness for the C9 theorem at an empty and at a non-empty input. -/
theorem reconstruction_entry_checks_nonempty_nodeList_witness :
    ConstructMeshComponentFromMeshData { NodeList := [], MaterialList := [] } true =
      .error FatalError.emptyNodeList ∧
    FCreateMeshFromMeshDataOnProceduralMeshComponentLatentAction
      { NodeList := [], MaterialList := [] } = .error FatalError.emptyNodeList ∧
    (ConstructMeshComponentFromMeshData twoNodeMeshData true).isOk = true ∧
    (FCreateMeshFromMeshDataOnProceduralMeshComponentLatentAction
      twoNodeMeshData).isOk = true := by
  have hEmpty := reconstruction_entry_checks_nonempty_nodeList
    { NodeList := [], MaterialList := [] } true
  have hFull := reconstruction_entry_checks_nonempty_nodeList twoNodeMeshData true
  exact ⟨(hEmpty.1 rfl).1, (hEmpty.1 rfl).2.2, (hFull.2 (by decide)).1,
    (hFull.2 (by decide)).2.2⟩
